import Mathlib

/-!
Verification development for the YouTube MP3 downloader GUI
(`src/youtube_gui_downloader.py`).

The Python program is shallowly embedded:

* `is_valid_youtube_url` embeds the regular-expression check
  `re.match(r'(https?://)?(www\.)?(youtube\.com|youtu\.be)/'
            r'(watch\?v=|embed/|v/|.+\?v=)?([^&=%\?]{11})', url)`
  as an executable matcher over the string's character list.  `re.match`
  anchors at the start of the string only, so the regex has to match a
  prefix of the input; alternation and the optional groups are rendered as
  boolean disjunctions, and the backtracking alternative `.+\?v=` as an
  existential (a bounded `any`) over the split point.
* The GUI application state (`tkinter` widgets, `pygame` mixer, flags on
  the `YouTubeMP3Downloader` object) becomes the structure `AppState`; the
  fallible external world of one download session (folder check, `ffmpeg`
  lookup, `yt_dlp` calls, the log-file append) becomes `SessionEnv`, and
  `start_download` becomes a pure function from the environment and the
  current state to the new state plus its observable output (message boxes
  shown, log lines appended, whether the extraction service was invoked,
  and the session result).
* Button handlers (`start_download_thread`, `play_audio`, `pause_audio`,
  `stop_audio`, `set_volume`) become functions `AppState → AppState × List
  String` returning the message-box titles they pop up, and `step` packs
  everything into one event-driven transition system used for the
  reachable-state invariants.
-/

namespace YTDL

/-- One character of the regex character class `[^&=%\?]`:
true when the character is none of `&`, `=`, `%`, `?`. -/
def goodIdChar (c : Char) : Bool :=
  !(c == '&' || c == '=' || c == '%' || c == '?')

/-- Literal-prefix test over character lists (the way a literal piece of the
regex consumes input). -/
def isPrefixL : List Char → List Char → Bool
  | [], _ => true
  | _ :: _, [] => false
  | p :: ps, c :: cs => p == c && isPrefixL ps cs

/-- The final regex group `([^&=%\?]{11})`: the input has at least 11
characters left and the first 11 avoid `&`, `=`, `%`, `?`. -/
def ident11 (cs : List Char) : Bool :=
  decide (11 ≤ cs.length) && (cs.take 11).all goodIdChar

/-- Characters of the regex literal `watch\?v=`. -/
def watchLit : List Char := ['w', 'a', 't', 'c', 'h', '?', 'v', '=']

/-- Characters of the regex literal `embed/`. -/
def embedLit : List Char := ['e', 'm', 'b', 'e', 'd', '/']

/-- Characters of the regex literal `v/`. -/
def vLit : List Char := ['v', '/']

/-- Characters of the regex literal `\?v=`. -/
def qvLit : List Char := ['?', 'v', '=']

/-- Characters of the regex literal `youtube\.com` followed by `/`. -/
def ycLit : List Char := ['y', 'o', 'u', 't', 'u', 'b', 'e', '.', 'c', 'o', 'm', '/']

/-- Characters of the regex literal `youtu\.be` followed by `/`. -/
def ybLit : List Char := ['y', 'o', 'u', 't', 'u', '.', 'b', 'e', '/']

/-- Characters of the regex literal `www\.`. -/
def wwwLit : List Char := ['w', 'w', 'w', '.']

/-- Characters of the scheme alternative `http://`. -/
def httpLit : List Char := ['h', 't', 't', 'p', ':', '/', '/']

/-- Characters of the scheme alternative `https://`. -/
def httpsLit : List Char := ['h', 't', 't', 'p', 's', ':', '/', '/']

/-- The backtracking alternative `.+\?v=` of the fourth regex group followed
by the identifier group: some nonempty newline-free chunk of length `k` is
consumed, then the literal `?v=`, then 11 identifier characters. -/
def dotPlusAlt (cs : List Char) : Bool :=
  (List.range (cs.length + 1)).any fun k =>
    decide (0 < k) && (cs.take k).all (fun c => !(c == '\n')) &&
      isPrefixL qvLit (cs.drop k) && ident11 (cs.drop (k + 3))

/-- What remains of the regex after the host and its `/`:
`(watch\?v=|embed/|v/|.+\?v=)?([^&=%\?]{11})`. -/
def matchAfterHost (cs : List Char) : Bool :=
  ident11 cs
  || (isPrefixL watchLit cs && ident11 (cs.drop 8))
  || (isPrefixL embedLit cs && ident11 (cs.drop 6))
  || (isPrefixL vLit cs && ident11 (cs.drop 2))
  || dotPlusAlt cs

/-- The host group and the slash after it: `(youtube\.com|youtu\.be)/`
followed by the rest of the regex. -/
def matchHost (cs : List Char) : Bool :=
  (isPrefixL ycLit cs && matchAfterHost (cs.drop 12))
  || (isPrefixL ybLit cs && matchAfterHost (cs.drop 9))

/-- The optional `(www\.)?` group followed by the rest of the regex. -/
def matchAfterScheme (cs : List Char) : Bool :=
  matchHost cs || (isPrefixL wwwLit cs && matchHost (cs.drop 4))

/-- The optional `(https?://)?` group followed by the rest of the regex. -/
def validUrlChars (cs : List Char) : Bool :=
  matchAfterScheme cs
  || (isPrefixL httpLit cs && matchAfterScheme (cs.drop 7))
  || (isPrefixL httpsLit cs && matchAfterScheme (cs.drop 8))

/-- Embedding of `is_valid_youtube_url` (`youtube_gui_downloader.py`, lines
39-45): `bool(re.match(youtube_regex, url))`. -/
def is_valid_youtube_url (s : String) : Bool := validUrlChars s.data

/-- Substring occurrence: `p` occurs as a contiguous run somewhere in `l`.
Used to state what a string "missing an accepted host" means. -/
def hasSubstr (p l : List Char) : Bool :=
  (List.range (l.length + 1)).any fun i => isPrefixL p (l.drop i)

/-- Some position of `l` starts a run of 11 characters avoiding `&=%?`.
Used to state what a string "missing the 11-character identifier" means. -/
def hasIdentRun (l : List Char) : Bool :=
  (List.range (l.length + 1)).any fun j => ident11 (l.drop j)

/-- Embedding of Python `str.strip()` as used on the URL entry
(`url = self.url_entry.get().strip()`): drop whitespace from both ends. -/
def pyStrip (s : String) : String :=
  ⟨((s.data.dropWhile Char.isWhitespace).reverse.dropWhile Char.isWhitespace).reverse⟩

/-- Embedding of the title sanitization
`info.get("title", "audio").replace("/", "_").replace("\\", "_")`
(line 251).  Both patterns are single characters and the replacement
introduces no new occurrence, so each `replace` is a character-wise map. -/
def sanitizeTitle (t : String) : String :=
  ⟨(t.data.map fun c => if c == '/' then '_' else c).map
     fun c => if c == '\\' then '_' else c⟩

/-- Embedding of the pathlib slash-join of a directory with a relative
file name, as in `folder / f"{title}.mp3"` (line 253). -/
def pathJoin (folder name : String) : String := folder ++ "/" ++ name

/-- Embedding of the pathlib `.name` attribute of a path: the part after
the last `/`. -/
def pathName (p : String) : String :=
  ⟨(p.data.reverse.takeWhile fun c => !(c == '/')).reverse⟩

/-- Playback state of the shared `pygame.mixer.music` stream.  `get_busy()`
is modelled as `= Playing` (pygame ≥ 2.0.1 reports `False` while paused). -/
inductive PlayState where
  | Stopped
  | Playing
  | Paused
  deriving DecidableEq

/-- A Python exception escaping a `yt_dlp` call or the log-file append:
either `yt_dlp.utils.DownloadError` or any other exception, as
distinguished by the two `except` clauses (lines 266-271). -/
inductive PyErr where
  | downloadError (msg : String)
  | otherError (msg : String)
  deriving DecidableEq

deriving instance DecidableEq for Except

/-- The failure taxonomy of one download session. -/
inductive DlError where
  | invalidUrl
  | invalidFolder
  | encoderMissing
  | extractionFailed (msg : String)
  | unexpectedFailure (msg : String)
  deriving DecidableEq

/-- The state of the `YouTubeMP3Downloader` application object together
with the widget state the claims observe.  `boundFileExists` models the
disk-level fact `self.last_downloaded_file.exists()` consulted by
`play_audio`; `playback` and `volume` model the `pygame.mixer.music`
stream. -/
structure AppState where
  is_downloading : Bool
  download_btn_enabled : Bool
  progressValue : ℚ
  statusText : String
  play_btn_enabled : Bool
  pause_btn_enabled : Bool
  stop_btn_enabled : Bool
  pause_btn_text : String
  pygame_enabled : Bool
  last_downloaded_file : Option String
  boundFileExists : Bool
  playback : PlayState
  volume : ℚ
  deriving DecidableEq

/-- State after `__init__` and `setup_ui`: no download in flight, transport
controls disabled, no file bound, mixer idle, volume slider at 0.5. -/
def initState (pygameOk : Bool) : AppState :=
  { is_downloading := false
    download_btn_enabled := true
    progressValue := 0
    statusText := "Ready"
    play_btn_enabled := false
    pause_btn_enabled := false
    stop_btn_enabled := false
    pause_btn_text := "Pause"
    pygame_enabled := pygameOk
    last_downloaded_file := none
    boundFileExists := false
    playback := .Stopped
    volume := 1 / 2 }

/-- The external world of one download session: widget contents read at
entry, the folder and `ffmpeg` checks, the outcomes of the two `yt_dlp`
calls (`extract_info` yields `info` whose `title` key may be absent), the
outcome of the log-file append, and the clock. -/
structure SessionEnv where
  urlEntry : String
  folderPath : String
  folderOk : Bool
  ffmpegOnPath : Bool
  bitrate : String
  extractInfo : Except PyErr (Option String)
  downloadCall : Except PyErr Unit
  logWriteOk : Bool
  now : String
  deriving DecidableEq

/-- Observable output of one `start_download` run: whether the extraction
service (`yt_dlp`) was invoked at all, the lines appended to
`yt_music_log.txt`, the message boxes shown (by title), and the session
result. -/
structure SessionOut where
  serviceInvoked : Bool
  logAppends : List String
  messages : List String
  result : Except DlError String
  deriving DecidableEq

/-- Embedding of `check_ffmpeg` (lines 27-37): reports whether `ffmpeg` is
on the system PATH, popping an error box when it is not. -/
def check_ffmpeg (ffmpegOnPath : Bool) : Bool × List String :=
  if ffmpegOnPath then (true, []) else (false, ["FFmpeg Not Found"])

/-- Message-box title raised for a Python exception (lines 266-271). -/
def pyErrTitle : PyErr → String
  | .downloadError _ => "Download Error"
  | .otherError _ => "Error"

/-- Session error corresponding to a Python exception in the `try` block. -/
def pyErrToDl : PyErr → DlError
  | .downloadError m => .extractionFailed m
  | .otherError m => .unexpectedFailure m

/-- Embedding of `finalize_download` (lines 275-278). -/
def finalize_download (s : AppState) : AppState :=
  { s with is_downloading := false, download_btn_enabled := true }

/-- Embedding of `start_download_thread` (lines 190-200).  Returns the new
state, whether a session was started (a worker thread spawned), and the
message boxes shown. -/
def start_download_thread (s : AppState) : AppState × Bool × List String :=
  if s.is_downloading then (s, false, ["Warning"])
  else
    ({ s with is_downloading := true
              download_btn_enabled := false
              progressValue := 0
              statusText := "Starting download..." },
     true, [])

/-- Embedding of `start_download` (lines 202-273), the body of one download
session run on the worker thread.  The intermediate progress-hook updates
are modelled separately by `progress_hook`; here only the session-level
state changes and outputs appear. -/
def start_download (env : SessionEnv) (s : AppState) : AppState × SessionOut :=
  let url := pyStrip env.urlEntry
  if url = "" ∨ is_valid_youtube_url url = false then
    (finalize_download s, ⟨false, [], ["Input Error"], .error .invalidUrl⟩)
  else if env.folderOk = false then
    (finalize_download s, ⟨false, [], ["Folder Error"], .error .invalidFolder⟩)
  else if (check_ffmpeg env.ffmpegOnPath).1 = false then
    (finalize_download s,
     ⟨false, [], (check_ffmpeg env.ffmpegOnPath).2, .error .encoderMissing⟩)
  else
    match env.extractInfo with
    | .error e =>
      (finalize_download { s with statusText := "Download failed." },
       ⟨true, [], [pyErrTitle e], .error (pyErrToDl e)⟩)
    | .ok info =>
      let title := sanitizeTitle (info.getD ("audio"))
      match env.downloadCall with
      | .error e =>
        (finalize_download { s with statusText := "Download failed." },
         ⟨true, [], [pyErrTitle e], .error (pyErrToDl e)⟩)
      | .ok _ =>
        let outFile := pathJoin env.folderPath (title ++ ".mp3")
        let s1 := { s with last_downloaded_file := some outFile, boundFileExists := true }
        if env.logWriteOk then
          let line := env.now ++ ": " ++ url ++ " -> " ++ outFile ++ "\n"
          let s2 := { s1 with statusText := "Downloaded: " ++ pathName outFile }
          let s3 :=
            if s2.pygame_enabled then
              { s2 with play_btn_enabled := true
                        pause_btn_enabled := true
                        stop_btn_enabled := true }
            else s2
          (finalize_download s3, ⟨true, [line], ["Success"], .ok outFile⟩)
        else
          (finalize_download { s1 with statusText := "Download failed." },
           ⟨true, [], ["Error"], .error (.unexpectedFailure ("log write failed"))⟩)

/-- One `yt_dlp` progress dictionary, with the keys the hook reads.
Numeric values are rationals (no claim depends on float rounding). -/
structure ProgressDict where
  status : String
  total_bytes : Option ℚ
  total_bytes_estimate : Option ℚ
  downloaded_bytes : Option ℚ
  speed : Option ℚ
  deriving DecidableEq

/-- Embedding of `d.get("total_bytes") or d.get("total_bytes_estimate", 1)`
(line 224): Python `or` falls through when the left side is `None` or
`0`. -/
def resolvedTotal (d : ProgressDict) : ℚ :=
  match d.total_bytes with
  | some t => if t = 0 then d.total_bytes_estimate.getD 1 else t
  | none => d.total_bytes_estimate.getD 1

/-- Status-line text of the downloading branch.  The Python f-string
renders percent and speed with one decimal; the exact rendering is not
load-bearing for any claim, so the numbers are shown exactly. -/
def downloadingStatus (percent speed : ℚ) : String :=
  "Downloading: " ++ toString percent ++ "% (" ++ toString speed ++ " KB/s)"

/-- Embedding of the local `progress_hook` (lines 222-232). -/
def progress_hook (d : ProgressDict) (s : AppState) : AppState :=
  if d.status = "downloading" then
    let total := resolvedTotal d
    let downloaded := d.downloaded_bytes.getD 0
    let percent := min (downloaded / total * 100) 100
    let speed := d.speed.getD 0 / 1024
    { s with progressValue := percent, statusText := downloadingStatus percent speed }
  else if d.status = "finished" then
    { s with progressValue := 100, statusText := "Converting to MP3..." }
  else s

/-- Embedding of `play_audio` (lines 280-296).  `loadOk` is whether the
`pygame` load/play of the bound file succeeds (its `except pygame.error`
branch pops a Playback Error box and changes nothing). -/
def play_audio (loadOk : Bool) (s : AppState) : AppState × List String :=
  if s.pygame_enabled = false then (s, ["Playback Unavailable"])
  else
    match s.last_downloaded_file with
    | none => (s, ["No File"])
    | some f =>
      if s.boundFileExists = false then (s, ["No File"])
      else if loadOk then
        ({ s with playback := .Playing
                  statusText := "Playing: " ++ pathName f
                  pause_btn_enabled := true }, [])
      else (s, ["Playback Error"])

/-- Embedding of `pause_audio` (lines 298-310): pause when the stream is
busy, otherwise unpause (which does nothing to an idle stream). -/
def pause_audio (s : AppState) : AppState × List String :=
  if s.pygame_enabled = false then (s, ["Playback Unavailable"])
  else if s.playback = PlayState.Playing then
    ({ s with playback := .Paused, statusText := "Paused", pause_btn_text := "Resume" }, [])
  else
    ({ s with playback := if s.playback = PlayState.Paused then .Playing else s.playback
              statusText := "Playing: " ++ pathName ((s.last_downloaded_file).getD (""))
              pause_btn_text := "Pause" }, [])

/-- Embedding of `stop_audio` (lines 312-319). -/
def stop_audio (s : AppState) : AppState × List String :=
  if s.pygame_enabled = false then (s, ["Playback Unavailable"])
  else
    ({ s with playback := .Stopped
              statusText := "Playback stopped."
              pause_btn_text := "Pause" }, [])

/-- Embedding of `set_volume` (lines 321-328): silently returns when the
audio subsystem is unavailable, otherwise applies the slider value. -/
def set_volume (v : ℚ) (s : AppState) : AppState × List String :=
  if s.pygame_enabled = false then (s, [])
  else ({ s with volume := v }, [])

/-- Events of the UI shell: the Download button, the completion of the
worker thread's session body (only meaningful while a session is in
flight), the transport controls, the volume slider, and the external event
that the bound file disappears from disk. -/
inductive Event where
  | pressDownload
  | runSession (env : SessionEnv)
  | pressPlay (loadOk : Bool)
  | pressPause
  | pressStop
  | slideVolume (v : ℚ)
  | fileVanishes

/-- One UI-shell transition. -/
def step (s : AppState) : Event → AppState
  | .pressDownload => (start_download_thread s).1
  | .runSession env => if s.is_downloading then (start_download env s).1 else s
  | .pressPlay loadOk => (play_audio loadOk s).1
  | .pressPause => (pause_audio s).1
  | .pressStop => (stop_audio s).1
  | .slideVolume v => (set_volume v s).1
  | .fileVanishes => { s with boundFileExists := false }

/-- Run a list of events from a state. -/
def runTrace (s : AppState) (evs : List Event) : AppState := evs.foldl step s

/-- A fully successful session environment with stubbed title `Test Song`. -/
def demoEnv : SessionEnv :=
  { urlEntry := "https://youtu.be/dQw4w9WgXcQ"
    folderPath := "/music"
    folderOk := true
    ffmpegOnPath := true
    bitrate := "192"
    extractInfo := .ok (some ("Test Song"))
    downloadCall := .ok ()
    logWriteOk := true
    now := "2026-10-12 10:00:00" }

/-- A second successful environment with a different stubbed title. -/
def demoEnv2 : SessionEnv :=
  { demoEnv with urlEntry := "https://youtu.be/abcdefghijk"
                 extractInfo := .ok (some ("Other Song")) }

/-- An environment whose session succeeds up to the log append, which
fails (for instance the log file is not writable). -/
def badLogEnv : SessionEnv :=
  { demoEnv with extractInfo := .ok (some ("New Song")), logWriteOk := false }

/-- An environment with an invalid URL and `ffmpeg` absent from PATH. -/
def badUrlNoFfmpegEnv : SessionEnv :=
  { demoEnv with urlEntry := "not a url", ffmpegOnPath := false }

/-- A valid environment whose only defect is `ffmpeg` missing from PATH. -/
def noFfmpegEnv : SessionEnv := { demoEnv with ffmpegOnPath := false }

/-- State reached after one successful session and pressing Download again
(a second session in flight). -/
def sAfterFirst : AppState :=
  runTrace (initState true) [.pressDownload, .runSession demoEnv, .pressDownload]

/-- A concrete mid-download progress dictionary: 50 of 200 bytes. -/
def demoProgress : ProgressDict :=
  { status := "downloading"
    total_bytes := some 200
    total_bytes_estimate := none
    downloaded_bytes := some 50
    speed := some 2048 }

/-- A concrete raw-download-finished progress dictionary. -/
def demoFinished : ProgressDict := { demoProgress with status := "finished" }

end YTDL

/-!
Cross-checks of the regex embedding and of the session model: each
concrete evaluation below was compared against CPython's `re.match` on
the source's regex, respectively traced by hand through
`start_download`.
-/
example : YTDL.is_valid_youtube_url ("https://www.youtube.com/watch?v=dQw4w9WgXcQ") = true := by decide
example : YTDL.is_valid_youtube_url ("https://youtu.be/dQw4w9WgXcQ") = true := by decide
example : YTDL.is_valid_youtube_url ("youtube.com/watch?v=dQw4w9WgXcQ") = true := by decide
example : YTDL.is_valid_youtube_url ("www.youtube.com/embed/dQw4w9WgXcQ") = true := by decide
example : YTDL.is_valid_youtube_url ("https://youtu.be/short") = false := by decide
example : YTDL.is_valid_youtube_url ("https://vimeo.com/watch?v=dQw4w9WgXcQ") = false := by decide
example : YTDL.is_valid_youtube_url ("https://www.youtube.com/watch?v=???????????") = false := by decide
example : YTDL.is_valid_youtube_url ("https://www.youtube.com/xyz?v=abcdefghijk") = true := by decide
example : YTDL.is_valid_youtube_url ("http://youtu.be/abcdefghijk") = true := by decide
example : YTDL.is_valid_youtube_url ("") = false := by decide
example : YTDL.is_valid_youtube_url ("https://youtu.be/v/abcdefghijk") = true := by decide
example : YTDL.is_valid_youtube_url ("youtu.be/watch?v=abcdefghijk") = true := by decide
example : YTDL.is_valid_youtube_url ("https://www.youtube.com/watch?v=abc") = false := by decide
example : YTDL.is_valid_youtube_url ("https://youtu.be/abcdefghij") = false := by decide
example : YTDL.is_valid_youtube_url ("https://youtu.be/abcdefghijkl") = true := by decide
example : YTDL.is_valid_youtube_url ("xhttps://youtu.be/abcdefghijk") = false := by decide
example : YTDL.is_valid_youtube_url ("https://www.youtu.be/watch?v=abcdefghijk") = true := by decide
example : YTDL.is_valid_youtube_url ("youtube.com/abcdefghijk") = true := by decide
example : YTDL.is_valid_youtube_url ("youtube.com/\n12345?v=abcdefghijk") = false := by decide
example : YTDL.is_valid_youtube_url ("youtube.com/x\ny?v=abcdefghijk") = false := by decide
example : YTDL.is_valid_youtube_url ("https://youtu.be/a?v=bcdefghijkl") = true := by decide
example : YTDL.is_valid_youtube_url ("HTTPS://YOUTU.BE/ABCDEFGHIJK") = false := by decide
example : YTDL.is_valid_youtube_url ("youtu.be/%%%%%%%%%%%") = false := by decide
example : YTDL.is_valid_youtube_url ("www.youtube.com/v/abcdefghijk") = true := by decide
example : YTDL.is_valid_youtube_url ("youtube.com/watch?v=abcdefghij&") = false := by decide
example : (YTDL.start_download YTDL.demoEnv (YTDL.initState true)).2.result = .ok ("/music/Test Song.mp3") := by decide
example : (YTDL.start_download YTDL.demoEnv (YTDL.initState true)).2.logAppends = ["2026-10-12 10:00:00: https://youtu.be/dQw4w9WgXcQ -> /music/Test Song.mp3\n"] := by decide
example : (YTDL.start_download YTDL.badUrlNoFfmpegEnv (YTDL.initState true)).2.result = .error .invalidUrl := by decide
example : (YTDL.runTrace (YTDL.initState true) [.pressDownload, .runSession YTDL.demoEnv]).play_btn_enabled = true := by decide
example : (YTDL.runTrace (YTDL.initState true) [.pressDownload, .runSession YTDL.demoEnv, .fileVanishes]).boundFileExists = false := by decide
example : (YTDL.runTrace (YTDL.initState true) [.pressDownload, .runSession YTDL.demoEnv, .pressPlay true]).playback = .Playing := by decide

namespace YTDL

/-- Claim C3: at most one download session is in flight at a time.  While
the in-flight flag is set, a further Download request is rejected with a
warning, changes nothing, and starts no session; and no event other than
the completion of the running session clears the flag. -/
theorem single_session_guard :
    (∀ s : AppState, s.is_downloading = true →
        start_download_thread s = (s, false, ["Warning"])) ∧
    (∀ (s : AppState) (e : Event), s.is_downloading = true →
        (step s e).is_downloading = false →
        ∃ env, e = Event.runSession env) := by
  constructor
  · intro s h
    simp [start_download_thread, h]
  · intro s e h hf
    cases e with
    | pressDownload => simp [step, start_download_thread, h] at hf
    | runSession env => exact ⟨env, rfl⟩
    | pressPlay loadOk =>
      exfalso
      unfold step play_audio at hf
      repeat' split at hf <;> simp_all
    | pressPause =>
      exfalso
      unfold step pause_audio at hf
      repeat' split at hf <;> simp_all
    | pressStop =>
      exfalso
      unfold step stop_audio at hf
      repeat' split at hf <;> simp_all
    | slideVolume v =>
      exfalso
      unfold step set_volume at hf
      repeat' split at hf <;> simp_all
    | fileVanishes => exact absurd hf (by simp [step, h])

/-- Witness for `single_session_guard` at a concrete busy state. -/
theorem single_session_guard_witness :
    start_download_thread sAfterFirst = (sAfterFirst, false, ["Warning"]) ∧
    (∃ env, Event.runSession demoEnv = Event.runSession env) :=
  ⟨single_session_guard.1 sAfterFirst (by decide),
   single_session_guard.2 sAfterFirst (Event.runSession demoEnv) (by decide) (by decide)⟩

/-- Claim C7 counterexample: with the audio subsystem unavailable,
`set_volume` is a silent no-op — it leaves the state unchanged but emits no
"unavailable" warning, contradicting the claim that all four operations
warn on every invocation. -/
theorem audio_unavailable_counterexample :
    (initState false).pygame_enabled = false ∧
    set_volume 1 (initState false) = (initState false, []) := by
  exact ⟨rfl, rfl⟩

/-- Claim C7 (amended): while the audio subsystem is unavailable, `play`,
`pause` and `stop` leave the state unchanged and warn "Playback
Unavailable" on every invocation, while `set_volume` leaves the state
unchanged silently (no warning). -/
theorem audio_unavailable_amended (s : AppState) (v : ℚ) (loadOk : Bool)
    (h : s.pygame_enabled = false) :
    play_audio loadOk s = (s, ["Playback Unavailable"]) ∧
    pause_audio s = (s, ["Playback Unavailable"]) ∧
    stop_audio s = (s, ["Playback Unavailable"]) ∧
    set_volume v s = (s, []) := by
  refine ⟨?_, ?_, ?_, ?_⟩ <;> simp [play_audio, pause_audio, stop_audio, set_volume, h]

/-- Witness for `audio_unavailable_amended` at a concrete state. -/
theorem audio_unavailable_amended_witness :
    play_audio true (initState false) = (initState false, ["Playback Unavailable"]) ∧
    set_volume 1 (initState false) = (initState false, []) :=
  ⟨(audio_unavailable_amended (initState false) 1 true rfl).1,
   (audio_unavailable_amended (initState false) 1 true rfl).2.2.2⟩

/-- Claim C9 counterexample: after a first successful download whose file
is playing, a second successful download rebinds the last-downloaded file
to a new path, yet the playback state is still `Playing` — it is not reset
to `Stopped`. -/
theorem playback_reset_counterexample :
    (runTrace (initState true)
        [.pressDownload, .runSession demoEnv, .pressPlay true]).last_downloaded_file
      = some ("/music/Test Song.mp3") ∧
    (runTrace (initState true)
        [.pressDownload, .runSession demoEnv, .pressPlay true,
         .pressDownload, .runSession demoEnv2]).last_downloaded_file
      = some ("/music/Other Song.mp3") ∧
    (runTrace (initState true)
        [.pressDownload, .runSession demoEnv, .pressPlay true,
         .pressDownload, .runSession demoEnv2]).playback = PlayState.Playing := by
  refine ⟨?_, ?_, ?_⟩ <;> decide

/-- Claim C9 (amended): a download session never touches the playback
state: whatever was playing before a new successful DownloadResult
replaces the bound file keeps playing (the state is not reset to
`Stopped`, and the pause-button label is untouched). -/
theorem playback_reset_amended (env : SessionEnv) (s : AppState) :
    ((start_download env s).1).playback = s.playback ∧
    ((start_download env s).1).pause_btn_text = s.pause_btn_text := by
  simp only [start_download, finalize_download]
  repeat' split
  all_goals exact ⟨rfl, rfl⟩

end YTDL

namespace YTDL

/-- Helper: the two single-character `replace` calls of the title
sanitization compose to one character-wise map. -/
theorem sanitize_chars (l : List Char) :
    ((l.map fun c => if c == '/' then '_' else c).map
       fun c => if c == '\\' then '_' else c)
      = l.map fun c => if c = '/' ∨ c = '\\' then '_' else c := by
  induction l with
  | nil => rfl
  | cons c l ih =>
    simp only [List.map_cons, ih, List.cons.injEq, and_true]
    by_cases h1 : c = '/'
    · simp [h1]
    · by_cases h2 : c = '\\' <;> simp [h1, h2]

/-- Claim C1 counterexample: with `ffmpeg` missing from PATH but an invalid
URL, the session reports `invalidUrl`, not `encoderMissing` — the URL (and
folder) checks run before the encoder check. -/
theorem encoder_missing_counterexample :
    badUrlNoFfmpegEnv.ffmpegOnPath = false ∧
    (start_download badUrlNoFfmpegEnv (initState true)).2.result
        = Except.error DlError.invalidUrl ∧
    (start_download badUrlNoFfmpegEnv (initState true)).2.result
        ≠ Except.error DlError.encoderMissing := by
  refine ⟨rfl, by decide, by decide⟩

/-- Claim C1 (amended): when the URL and folder checks pass and the
encoder binary is not on PATH, the session reports `EncoderMissing` (with
the `FFmpeg Not Found` box) without invoking the extraction service; but
when the URL fails validation the reported error is `InvalidUrl`, and when
the URL is valid and the folder check fails it is `InvalidFolder` — in
both cases also without invoking the service, even if the encoder is
missing too. -/
theorem encoder_missing_amended :
    (∀ (env : SessionEnv) (s : AppState),
        pyStrip env.urlEntry ≠ "" →
        is_valid_youtube_url (pyStrip env.urlEntry) = true →
        env.folderOk = true → env.ffmpegOnPath = false →
        (start_download env s).2.result = Except.error DlError.encoderMissing ∧
        (start_download env s).2.serviceInvoked = false ∧
        (start_download env s).2.messages = ["FFmpeg Not Found"]) ∧
    (∀ (env : SessionEnv) (s : AppState),
        (pyStrip env.urlEntry = "" ∨ is_valid_youtube_url (pyStrip env.urlEntry) = false) →
        (start_download env s).2.result = Except.error DlError.invalidUrl ∧
        (start_download env s).2.serviceInvoked = false) ∧
    (∀ (env : SessionEnv) (s : AppState),
        pyStrip env.urlEntry ≠ "" →
        is_valid_youtube_url (pyStrip env.urlEntry) = true →
        env.folderOk = false →
        (start_download env s).2.result = Except.error DlError.invalidFolder ∧
        (start_download env s).2.serviceInvoked = false) := by
  refine ⟨?_, ?_, ?_⟩
  · intro env s h1 h2 h3 h4
    refine ⟨?_, ?_, ?_⟩ <;> simp [start_download, check_ffmpeg, h1, h2, h3, h4]
  · intro env s h
    simp only [start_download]
    rw [if_pos h]
    exact ⟨rfl, rfl⟩
  · intro env s h1 h2 h3
    constructor <;> simp [start_download, h1, h2, h3]

/-- Witness for `encoder_missing_amended` at concrete environments. -/
theorem encoder_missing_amended_witness :
    (start_download noFfmpegEnv (initState true)).2.result
        = Except.error DlError.encoderMissing ∧
    (start_download noFfmpegEnv (initState true)).2.serviceInvoked = false ∧
    (start_download badUrlNoFfmpegEnv (initState true)).2.result
        = Except.error DlError.invalidUrl := by
  refine ⟨?_, ?_, ?_⟩
  · exact (encoder_missing_amended.1 noFfmpegEnv (initState true)
      (by decide) (by decide) rfl rfl).1
  · exact (encoder_missing_amended.1 noFfmpegEnv (initState true)
      (by decide) (by decide) rfl rfl).2.1
  · exact (encoder_missing_amended.2.1 badUrlNoFfmpegEnv (initState true) (by decide)).1

/-- Claim C4: a successful session reports the output path obtained by
joining the target directory with the extracted title — every `/` and `\`
in the title replaced by `_` — plus the `.mp3` extension; with a stubbed
title `Test Song` the path is `<folder>/Test Song.mp3`. -/
theorem output_path_derivation :
    (∀ (env : SessionEnv) (s : AppState) (info : Option String),
        pyStrip env.urlEntry ≠ "" →
        is_valid_youtube_url (pyStrip env.urlEntry) = true →
        env.folderOk = true → env.ffmpegOnPath = true →
        env.extractInfo = Except.ok info →
        env.downloadCall = Except.ok () →
        env.logWriteOk = true →
        (start_download env s).2.result
            = Except.ok (pathJoin env.folderPath
                (sanitizeTitle (info.getD ("audio")) ++ ".mp3")) ∧
        (start_download env s).1.last_downloaded_file
            = some (pathJoin env.folderPath
                (sanitizeTitle (info.getD ("audio")) ++ ".mp3"))) ∧
    (∀ t : String,
        (sanitizeTitle t).data
          = t.data.map fun c => if c = '/' ∨ c = '\\' then '_' else c) ∧
    (start_download demoEnv (initState true)).2.result
        = Except.ok ("/music/Test Song.mp3") := by
  refine ⟨?_, ?_, by decide⟩
  · intro env s info h1 h2 h3 h4 h5 h6 h7
    constructor <;>
      simp [start_download, check_ffmpeg, finalize_download, apply_ite,
            h1, h2, h3, h4, h5, h6, h7]
  · intro t
    exact sanitize_chars t.data

/-- Witness for `output_path_derivation` at the stubbed environment. -/
theorem output_path_derivation_witness :
    (start_download demoEnv (initState true)).2.result
        = Except.ok (pathJoin demoEnv.folderPath
            (sanitizeTitle ((some ("Test Song")).getD ("audio")) ++ ".mp3")) :=
  (output_path_derivation.1 demoEnv (initState true) (some ("Test Song"))
    (by decide) (by decide) rfl rfl rfl rfl rfl).1

/-- Claim C5: a successful session appends exactly one line to the session
log, `<timestamp>: <url> -> <outputFile>` (with a trailing newline), where
`<url>` is the request URL and `<outputFile>` the reported output path;
failed sessions append nothing. -/
theorem session_log_line (env : SessionEnv) (s : AppState) :
    (∀ p : String,
        (start_download env s).2.result = Except.ok p →
        (start_download env s).2.logAppends
          = [env.now ++ ": " ++ pyStrip env.urlEntry ++ " -> " ++ p ++ "\n"]) ∧
    (∀ e : DlError,
        (start_download env s).2.result = Except.error e →
        (start_download env s).2.logAppends = []) := by
  simp only [start_download]
  repeat' split
  all_goals constructor
  all_goals intro x hx
  all_goals simp_all

/-- Witness for `session_log_line` at the stubbed environment. -/
theorem session_log_line_witness :
    (start_download demoEnv (initState true)).2.logAppends
      = [demoEnv.now ++ ": " ++ pyStrip demoEnv.urlEntry ++ " -> "
          ++ "/music/Test Song.mp3" ++ "\n"] :=
  (session_log_line demoEnv (initState true)).1 ("/music/Test Song.mp3") (by decide)

/-- Claim C6: while downloading, the reported percent is
`downloaded / total * 100` clamped at 100 (in particular never exceeding
100, and equal to 100 as soon as the downloaded count reaches the resolved
total); on a `finished` event the percent is forced to 100 and the status
line flips to the converting phase. -/
theorem progress_percent (d : ProgressDict) (s : AppState) :
    (d.status = "downloading" →
        (progress_hook d s).progressValue
            = min (d.downloaded_bytes.getD 0 / resolvedTotal d * 100) 100 ∧
        (progress_hook d s).progressValue ≤ 100 ∧
        (0 < resolvedTotal d → d.downloaded_bytes.getD 0 ≤ resolvedTotal d →
            (progress_hook d s).progressValue
              = d.downloaded_bytes.getD 0 / resolvedTotal d * 100) ∧
        (0 < resolvedTotal d → resolvedTotal d ≤ d.downloaded_bytes.getD 0 →
            (progress_hook d s).progressValue = 100)) ∧
    (d.status = "finished" →
        (progress_hook d s).progressValue = 100 ∧
        (progress_hook d s).statusText = "Converting to MP3...") := by
  constructor
  · intro h
    have hp : (progress_hook d s).progressValue
        = min (d.downloaded_bytes.getD 0 / resolvedTotal d * 100) 100 := by
      simp [progress_hook, h]
    refine ⟨hp, ?_, ?_, ?_⟩
    · rw [hp]; exact min_le_right _ _
    · intro ht hle
      rw [hp]
      have h1 : d.downloaded_bytes.getD 0 / resolvedTotal d ≤ 1 := (div_le_one ht).2 hle
      have h2 : d.downloaded_bytes.getD 0 / resolvedTotal d * 100 ≤ 100 := by nlinarith
      exact min_eq_left h2
    · intro ht hge
      rw [hp]
      have h1 : 1 ≤ d.downloaded_bytes.getD 0 / resolvedTotal d := (one_le_div ht).2 hge
      have h2 : (100 : ℚ) ≤ d.downloaded_bytes.getD 0 / resolvedTotal d * 100 := by nlinarith
      exact min_eq_right h2
  · intro h
    have hne : d.status ≠ "downloading" := by rw [h]; decide
    constructor <;> simp [progress_hook, h, hne]

/-- Witness for `progress_percent` at concrete progress dictionaries. -/
theorem progress_percent_witness :
    (progress_hook demoProgress (initState true)).progressValue
        = demoProgress.downloaded_bytes.getD 0 / resolvedTotal demoProgress * 100 ∧
    (progress_hook demoFinished (initState true)).progressValue = 100 ∧
    (progress_hook demoFinished (initState true)).statusText = "Converting to MP3..." := by
  refine ⟨((progress_percent demoProgress (initState true)).1 rfl).2.2.1 ?_ ?_,
          ((progress_percent demoFinished (initState true)).2 rfl).1,
          ((progress_percent demoFinished (initState true)).2 rfl).2⟩
  · norm_num [resolvedTotal, demoProgress]
  · norm_num [resolvedTotal, demoProgress]

/-- Claim C10 counterexample: a session that fails only at the log-file
append still replaces the last-downloaded-file reference (the write of
line 253 happens before the log append), so failed sessions are not atomic
with respect to that reference. -/
theorem failure_atomicity_counterexample :
    sAfterFirst.last_downloaded_file = some ("/music/Test Song.mp3") ∧
    (start_download badLogEnv sAfterFirst).2.result
        = Except.error (DlError.unexpectedFailure ("log write failed")) ∧
    (start_download badLogEnv sAfterFirst).1.last_downloaded_file
        = some ("/music/New Song.mp3") := by
  refine ⟨by decide, by decide, by decide⟩

/-- Claim C10 (amended): every failed session appends no log line and
never newly enables the playback controls; the last-downloaded-file
reference keeps its previous value for every failure except an unexpected
failure of the log append itself, which happens after the reference has
already been updated. -/
theorem failure_atomicity_amended (env : SessionEnv) (s : AppState) (e : DlError)
    (h : (start_download env s).2.result = Except.error e) :
    (start_download env s).2.logAppends = [] ∧
    (start_download env s).1.play_btn_enabled = s.play_btn_enabled ∧
    (start_download env s).1.pause_btn_enabled = s.pause_btn_enabled ∧
    (start_download env s).1.stop_btn_enabled = s.stop_btn_enabled ∧
    (env.logWriteOk = true →
        (start_download env s).1.last_downloaded_file = s.last_downloaded_file) := by
  revert h
  simp only [start_download, finalize_download]
  repeat' split
  all_goals intro h
  all_goals simp_all

/-- Witness for `failure_atomicity_amended` at a concrete failing session. -/
theorem failure_atomicity_amended_witness :
    (start_download badUrlNoFfmpegEnv sAfterFirst).2.logAppends = [] ∧
    (start_download badUrlNoFfmpegEnv sAfterFirst).1.play_btn_enabled
        = sAfterFirst.play_btn_enabled := by
  have h := failure_atomicity_amended badUrlNoFfmpegEnv sAfterFirst
    DlError.invalidUrl (by decide)
  exact ⟨h.1, h.2.1⟩

end YTDL

namespace YTDL

/-- Helper: every UI transition preserves the invariant "some transport
control enabled implies a download result is bound". -/
theorem step_keeps_controls_inv (s : AppState) (e : Event)
    (h : (s.play_btn_enabled = true ∨ s.pause_btn_enabled = true ∨
            s.stop_btn_enabled = true) →
         s.last_downloaded_file.isSome = true) :
    ((step s e).play_btn_enabled = true ∨ (step s e).pause_btn_enabled = true ∨
        (step s e).stop_btn_enabled = true) →
    (step s e).last_downloaded_file.isSome = true := by
  cases e <;>
    simp only [step, start_download_thread, start_download, finalize_download,
               play_audio, pause_audio, stop_audio, set_volume] <;>
    (repeat' split) <;> simp_all

/-- Helper: the invariant holds along every event trace. -/
theorem runTrace_controls_inv (evs : List Event) (s : AppState)
    (h : (s.play_btn_enabled = true ∨ s.pause_btn_enabled = true ∨
            s.stop_btn_enabled = true) →
         s.last_downloaded_file.isSome = true) :
    ((runTrace s evs).play_btn_enabled = true ∨
        (runTrace s evs).pause_btn_enabled = true ∨
        (runTrace s evs).stop_btn_enabled = true) →
    (runTrace s evs).last_downloaded_file.isSome = true := by
  induction evs generalizing s with
  | nil => exact h
  | cons e evs ih => exact ih (step s e) (step_keeps_controls_inv s e h)

/-- Claim C8 counterexample: after a successful download the transport
controls are enabled, and they stay enabled when the bound file later
disappears from disk — the code never re-checks existence for the button
state, so "enabled only if the bound file still exists on disk" fails. -/
theorem controls_enabled_counterexample :
    (runTrace (initState true)
        [.pressDownload, .runSession demoEnv, .fileVanishes]).play_btn_enabled = true ∧
    (runTrace (initState true)
        [.pressDownload, .runSession demoEnv, .fileVanishes]).boundFileExists = false := by
  refine ⟨by decide, by decide⟩

/-- Claim C8 (amended): in every reachable state of the UI shell, the
transport controls are enabled only if at least one successful download
result exists (a last-downloaded file is bound); before any successful
download all three controls are disabled.  Whether the bound file still
exists on disk is not re-checked for the button state. -/
theorem controls_enabled_amended :
    (∀ (pg : Bool) (evs : List Event),
        ((runTrace (initState pg) evs).play_btn_enabled = true ∨
         (runTrace (initState pg) evs).pause_btn_enabled = true ∨
         (runTrace (initState pg) evs).stop_btn_enabled = true) →
        (runTrace (initState pg) evs).last_downloaded_file.isSome = true) ∧
    (∀ pg : Bool,
        (initState pg).play_btn_enabled = false ∧
        (initState pg).pause_btn_enabled = false ∧
        (initState pg).stop_btn_enabled = false) := by
  constructor
  · intro pg evs
    exact runTrace_controls_inv evs (initState pg) (by intro hc; simp [initState] at hc)
  · intro pg
    exact ⟨rfl, rfl, rfl⟩

/-- Witness for `controls_enabled_amended` on a concrete trace with the
controls enabled. -/
theorem controls_enabled_amended_witness :
    (runTrace (initState true)
        [.pressDownload, .runSession demoEnv]).last_downloaded_file.isSome = true :=
  controls_enabled_amended.1 true [.pressDownload, .runSession demoEnv]
    (Or.inl (by decide))

end YTDL

namespace YTDL

/-- Helper: a list is a `isPrefixL`-prefix of itself followed by anything. -/
theorem isPrefixL_append (p rest : List Char) : isPrefixL p (p ++ rest) = true := by
  induction p with
  | nil => rfl
  | cons c p ih => simp [isPrefixL, ih]

/-- Helper: a matched prefix is no longer than the input. -/
theorem isPrefixL_length_le (p : List Char) :
    ∀ l, isPrefixL p l = true → p.length ≤ l.length := by
  induction p with
  | nil => intro l _; simp
  | cons c p ih =>
    intro l h
    cases l with
    | nil => simp [isPrefixL] at h
    | cons d l =>
      simp only [isPrefixL, Bool.and_eq_true] at h
      have := ih l h.2
      simp only [List.length_cons]
      omega

/-- Helper: the identifier group needs at least 11 characters. -/
theorem ident11_length (l : List Char) (h : ident11 l = true) : 11 ≤ l.length := by
  simp only [ident11, Bool.and_eq_true, decide_eq_true_eq] at h
  exact h.1

/-- Helper: fewer than 11 characters never match the identifier group. -/
theorem ident11_short (l : List Char) (h : l.length < 11) : ident11 l = false := by
  cases hi : ident11 l
  · rfl
  · exact absurd (ident11_length l hi) (by omega)

/-- Helper: a forbidden character among the first 11 defeats the
identifier group. -/
theorem ident11_false_of_bad (l : List Char)
    (h : (l.take 11).all goodIdChar = false) : ident11 l = false := by
  simp [ident11, h]

/-- Helper: exactly 11 characters, all allowed, match the identifier
group. -/
theorem ident11_of_exact (l : List Char) (h1 : l.length = 11)
    (h2 : l.all goodIdChar = true) : ident11 l = true := by
  have ht : l.take 11 = l := List.take_of_length_le (by omega)
  simp [ident11, h1, ht, h2]

/-- Helper: a prefix match at any offset is a substring occurrence. -/
theorem hasSubstr_of_prefix_drop (p l : List Char) (i : ℕ) (hp : p ≠ [])
    (h : isPrefixL p (l.drop i) = true) : hasSubstr p l = true := by
  have h1 : p.length ≤ (l.drop i).length := isPrefixL_length_le p _ h
  rw [List.length_drop] at h1
  have h2 : 0 < p.length := List.length_pos.2 hp
  simp only [hasSubstr, List.any_eq_true]
  exact ⟨i, List.mem_range.2 (by omega), h⟩

/-- Helper: an identifier match at any offset is an identifier run. -/
theorem hasIdentRun_of_drop (l : List Char) (j : ℕ)
    (h : ident11 (l.drop j) = true) : hasIdentRun l = true := by
  have h1 : 11 ≤ (l.drop j).length := ident11_length _ h
  rw [List.length_drop] at h1
  simp only [hasIdentRun, List.any_eq_true]
  exact ⟨j, List.mem_range.2 (by omega), h⟩

/-- Helper: whatever alternative matched after the host, an identifier
group matched at some offset. -/
theorem matchAfterHost_ident (cs : List Char) (h : matchAfterHost cs = true) :
    ∃ j, ident11 (cs.drop j) = true := by
  simp only [matchAfterHost, Bool.or_eq_true, Bool.and_eq_true] at h
  rcases h with (((h | ⟨_, h⟩) | ⟨_, h⟩) | ⟨_, h⟩) | h
  · exact ⟨0, by simpa using h⟩
  · exact ⟨8, h⟩
  · exact ⟨6, h⟩
  · exact ⟨2, h⟩
  · simp only [dotPlusAlt, List.any_eq_true] at h
    obtain ⟨k, _, hk⟩ := h
    simp only [Bool.and_eq_true] at hk
    exact ⟨k + 3, hk.2⟩

/-- Helper: a host match pins one of the two host literals at the front
and an identifier group further in. -/
theorem matchHost_ident (cs : List Char) (h : matchHost cs = true) :
    (isPrefixL ycLit cs = true ∨ isPrefixL ybLit cs = true) ∧
    ∃ j, ident11 (cs.drop j) = true := by
  simp only [matchHost, Bool.or_eq_true, Bool.and_eq_true] at h
  rcases h with ⟨hp, h⟩ | ⟨hp, h⟩
  · obtain ⟨j, hj⟩ := matchAfterHost_ident _ h
    rw [List.drop_drop] at hj
    exact ⟨Or.inl hp, ⟨12 + j, hj⟩⟩
  · obtain ⟨j, hj⟩ := matchAfterHost_ident _ h
    rw [List.drop_drop] at hj
    exact ⟨Or.inr hp, ⟨9 + j, hj⟩⟩

/-- Helper: after the optional `www.`, a host literal occurs at offset 0
or 4 and an identifier group occurs at some offset. -/
theorem matchAfterScheme_ident (cs : List Char) (h : matchAfterScheme cs = true) :
    (∃ i, isPrefixL ycLit (cs.drop i) = true ∨ isPrefixL ybLit (cs.drop i) = true) ∧
    ∃ j, ident11 (cs.drop j) = true := by
  simp only [matchAfterScheme, Bool.or_eq_true, Bool.and_eq_true] at h
  rcases h with h | ⟨_, h⟩
  · obtain ⟨hhost, ⟨j, hj⟩⟩ := matchHost_ident cs h
    exact ⟨⟨0, by simpa using hhost⟩, ⟨j, hj⟩⟩
  · obtain ⟨hhost, ⟨j, hj⟩⟩ := matchHost_ident _ h
    rw [List.drop_drop] at hj
    exact ⟨⟨4, hhost⟩, ⟨4 + j, hj⟩⟩

/-- Helper: any accepted string has a host literal and an identifier run
at concrete offsets. -/
theorem validUrlChars_struct (l : List Char) (h : validUrlChars l = true) :
    (∃ i, isPrefixL ycLit (l.drop i) = true ∨ isPrefixL ybLit (l.drop i) = true) ∧
    ∃ j, ident11 (l.drop j) = true := by
  simp only [validUrlChars, Bool.or_eq_true, Bool.and_eq_true] at h
  rcases h with (h | ⟨_, h⟩) | ⟨_, h⟩
  · exact matchAfterScheme_ident l h
  · obtain ⟨⟨i, hi⟩, ⟨j, hj⟩⟩ := matchAfterScheme_ident _ h
    rw [List.drop_drop] at hi hj
    exact ⟨⟨7 + i, hi⟩, ⟨7 + j, hj⟩⟩
  · obtain ⟨⟨i, hi⟩, ⟨j, hj⟩⟩ := matchAfterScheme_ident _ h
    rw [List.drop_drop] at hi hj
    exact ⟨⟨8 + i, hi⟩, ⟨8 + j, hj⟩⟩

/-- Helper: if no offset matches the identifier group, nothing after the
host can match. -/
theorem matchAfterHost_none (cs : List Char)
    (h : ∀ j, ident11 (cs.drop j) = false) : matchAfterHost cs = false := by
  cases hm : matchAfterHost cs
  · rfl
  · obtain ⟨j, hj⟩ := matchAfterHost_ident cs hm
    rw [h j] at hj
    exact Bool.noConfusion hj

/-- Helper: fewer than 11 characters after the host never match. -/
theorem matchAfterHost_short (l : List Char) (h : l.length < 11) :
    matchAfterHost l = false :=
  matchAfterHost_none l fun j => ident11_short _ (by rw [List.length_drop]; omega)

end YTDL

namespace YTDL

/-- Helper: a bare identifier right after the host matches. -/
theorem matchAfterHost_direct_pos (cs : List Char) (h : ident11 cs = true) :
    matchAfterHost cs = true := by
  simp only [matchAfterHost, Bool.or_eq_true]
  exact Or.inl (Or.inl (Or.inl (Or.inl h)))

/-- Helper: `watch?v=` followed by an identifier matches after the host. -/
theorem matchAfterHost_watch_pos (idd : List Char) (h : ident11 idd = true) :
    matchAfterHost (watchLit ++ idd) = true := by
  have hd : (watchLit ++ idd).drop 8 = idd := by
    rw [show (8 : ℕ) = watchLit.length from rfl, List.drop_left]
  simp only [matchAfterHost, Bool.or_eq_true, Bool.and_eq_true]
  exact Or.inl (Or.inl (Or.inl (Or.inr ⟨isPrefixL_append watchLit idd, by rw [hd]; exact h⟩)))

/-- Helper: the `youtube.com/` host literal composes. -/
theorem matchHost_yc_pos (rest : List Char) (h : matchAfterHost rest = true) :
    matchHost (ycLit ++ rest) = true := by
  have hd : (ycLit ++ rest).drop 12 = rest := by
    rw [show (12 : ℕ) = ycLit.length from rfl, List.drop_left]
  simp only [matchHost, Bool.or_eq_true, Bool.and_eq_true]
  exact Or.inl ⟨isPrefixL_append ycLit rest, by rw [hd]; exact h⟩

/-- Helper: the `youtu.be/` host literal composes. -/
theorem matchHost_yb_pos (rest : List Char) (h : matchAfterHost rest = true) :
    matchHost (ybLit ++ rest) = true := by
  have hd : (ybLit ++ rest).drop 9 = rest := by
    rw [show (9 : ℕ) = ybLit.length from rfl, List.drop_left]
  simp only [matchHost, Bool.or_eq_true, Bool.and_eq_true]
  exact Or.inr ⟨isPrefixL_append ybLit rest, by rw [hd]; exact h⟩

/-- Helper: a host match is accepted with no `www.` in front. -/
theorem matchAfterScheme_direct_pos (cs : List Char) (h : matchHost cs = true) :
    matchAfterScheme cs = true := by
  simp only [matchAfterScheme, Bool.or_eq_true]
  exact Or.inl h

/-- Helper: the `www.` group composes. -/
theorem matchAfterScheme_www_pos (rest : List Char) (h : matchHost rest = true) :
    matchAfterScheme (wwwLit ++ rest) = true := by
  have hd : (wwwLit ++ rest).drop 4 = rest := by
    rw [show (4 : ℕ) = wwwLit.length from rfl, List.drop_left]
  simp only [matchAfterScheme, Bool.or_eq_true, Bool.and_eq_true]
  exact Or.inr ⟨isPrefixL_append wwwLit rest, by rw [hd]; exact h⟩

/-- Helper: the `https://` scheme composes. -/
theorem validUrlChars_https_pos (rest : List Char) (h : matchAfterScheme rest = true) :
    validUrlChars (httpsLit ++ rest) = true := by
  have hd : (httpsLit ++ rest).drop 8 = rest := by
    rw [show (8 : ℕ) = httpsLit.length from rfl, List.drop_left]
  simp only [validUrlChars, Bool.or_eq_true, Bool.and_eq_true]
  exact Or.inr ⟨isPrefixL_append httpsLit rest, by rw [hd]; exact h⟩

/-- Helper: with fewer than 11 identifier characters after `watch?v=`,
nothing after the host matches: every offset either hits `?` or `=` inside
`watch?v=` or leaves fewer than 11 characters. -/
theorem matchAfterHost_watch_short (idd : List Char) (h : idd.length < 11) :
    matchAfterHost (watchLit ++ idd) = false := by
  apply matchAfterHost_none
  intro j
  by_cases hj : j ≤ 7
  · interval_cases j <;> exact ident11_false_of_bad _ rfl
  · apply ident11_short
    rw [List.length_drop, List.length_append, show watchLit.length = 8 from rfl]
    omega

/-- Helper: the canonical watch URL with a short identifier is rejected. -/
theorem valid_watch_short (idd : List Char) (h : idd.length < 11) :
    validUrlChars (httpsLit ++ (wwwLit ++ (ycLit ++ (watchLit ++ idd)))) = false := by
  have hmah : matchAfterHost (watchLit ++ idd) = false := matchAfterHost_watch_short idd h
  have hd8 : (httpsLit ++ (wwwLit ++ (ycLit ++ (watchLit ++ idd)))).drop 8
      = wwwLit ++ (ycLit ++ (watchLit ++ idd)) := by
    rw [show (8 : ℕ) = httpsLit.length from rfl, List.drop_left]
  have hd4 : (wwwLit ++ (ycLit ++ (watchLit ++ idd))).drop 4
      = ycLit ++ (watchLit ++ idd) := by
    rw [show (4 : ℕ) = wwwLit.length from rfl, List.drop_left]
  have hd12 : (ycLit ++ (watchLit ++ idd)).drop 12 = watchLit ++ idd := by
    rw [show (12 : ℕ) = ycLit.length from rfl, List.drop_left]
  have p1 : isPrefixL ycLit (httpsLit ++ (wwwLit ++ (ycLit ++ (watchLit ++ idd)))) = false := rfl
  have p2 : isPrefixL ybLit (httpsLit ++ (wwwLit ++ (ycLit ++ (watchLit ++ idd)))) = false := rfl
  have p3 : isPrefixL wwwLit (httpsLit ++ (wwwLit ++ (ycLit ++ (watchLit ++ idd)))) = false := rfl
  have p4 : isPrefixL httpLit (httpsLit ++ (wwwLit ++ (ycLit ++ (watchLit ++ idd)))) = false := rfl
  have p5 : isPrefixL httpsLit (httpsLit ++ (wwwLit ++ (ycLit ++ (watchLit ++ idd)))) = true :=
    isPrefixL_append _ _
  have q1 : isPrefixL ycLit (wwwLit ++ (ycLit ++ (watchLit ++ idd))) = false := rfl
  have q2 : isPrefixL ybLit (wwwLit ++ (ycLit ++ (watchLit ++ idd))) = false := rfl
  have q3 : isPrefixL wwwLit (wwwLit ++ (ycLit ++ (watchLit ++ idd))) = true :=
    isPrefixL_append _ _
  have r1 : isPrefixL ycLit (ycLit ++ (watchLit ++ idd)) = true := isPrefixL_append _ _
  have r2 : isPrefixL ybLit (ycLit ++ (watchLit ++ idd)) = false := rfl
  simp only [validUrlChars, matchAfterScheme, matchHost, hd8, hd4, hd12,
             p1, p2, p3, p4, p5, q1, q2, q3, r1, r2, hmah,
             Bool.false_and, Bool.true_and, Bool.and_false, Bool.false_or,
             Bool.or_false, Bool.or_self]

/-- Helper: the short-link URL with a short identifier is rejected. -/
theorem valid_yb_short (idd : List Char) (h : idd.length < 11) :
    validUrlChars (httpsLit ++ (ybLit ++ idd)) = false := by
  have hmah : matchAfterHost idd = false := matchAfterHost_short idd h
  have hd8 : (httpsLit ++ (ybLit ++ idd)).drop 8 = ybLit ++ idd := by
    rw [show (8 : ℕ) = httpsLit.length from rfl, List.drop_left]
  have hd9 : (ybLit ++ idd).drop 9 = idd := by
    rw [show (9 : ℕ) = ybLit.length from rfl, List.drop_left]
  have p1 : isPrefixL ycLit (httpsLit ++ (ybLit ++ idd)) = false := rfl
  have p2 : isPrefixL ybLit (httpsLit ++ (ybLit ++ idd)) = false := rfl
  have p3 : isPrefixL wwwLit (httpsLit ++ (ybLit ++ idd)) = false := rfl
  have p4 : isPrefixL httpLit (httpsLit ++ (ybLit ++ idd)) = false := rfl
  have p5 : isPrefixL httpsLit (httpsLit ++ (ybLit ++ idd)) = true := isPrefixL_append _ _
  have q1 : isPrefixL ycLit (ybLit ++ idd) = false := rfl
  have q2 : isPrefixL ybLit (ybLit ++ idd) = true := isPrefixL_append _ _
  have q3 : isPrefixL wwwLit (ybLit ++ idd) = false := rfl
  simp only [validUrlChars, matchAfterScheme, matchHost, hd8, hd9,
             p1, p2, p3, p4, p5, q1, q2, q3, hmah,
             Bool.false_and, Bool.true_and, Bool.and_false, Bool.false_or,
             Bool.or_false, Bool.or_self]

/-- Claim C2 counterexample: `?` is an 11-character identifier candidate
by the claim's letter (`<11 chars>`), yet both URL forms built from eleven
`?` characters are rejected — the regex class `[^&=%\?]` forbids `&`, `=`,
`%`, `?` inside the identifier. -/
theorem url_validator_counterexample :
    ("???????????" : String).length = 11 ∧
    is_valid_youtube_url ("https://www.youtube.com/watch?v=" ++ "???????????") = false ∧
    is_valid_youtube_url ("https://youtu.be/" ++ "???????????") = false := by
  refine ⟨by decide, by decide, by decide⟩

/-- Claim C2 (amended): the URL Validator accepts every string
`https://www.youtube.com/watch?v=<id>` and `https://youtu.be/<id>` whose
11-character identifier avoids the characters `&`, `=`, `%`, `?`; it
rejects every string in which neither accepted host (`youtube.com/` or
`youtu.be/`) occurs, every string with no run of 11 consecutive
identifier characters anywhere, and both URL forms when the identifier
has fewer than 11 characters. -/
theorem url_validator_amended :
    (∀ id : String, id.length = 11 → id.data.all goodIdChar = true →
        is_valid_youtube_url ("https://www.youtube.com/watch?v=" ++ id) = true ∧
        is_valid_youtube_url ("https://youtu.be/" ++ id) = true) ∧
    (∀ s : String, hasSubstr ycLit s.data = false → hasSubstr ybLit s.data = false →
        is_valid_youtube_url s = false) ∧
    (∀ s : String, hasIdentRun s.data = false → is_valid_youtube_url s = false) ∧
    (∀ id : String, id.length < 11 →
        is_valid_youtube_url ("https://www.youtube.com/watch?v=" ++ id) = false ∧
        is_valid_youtube_url ("https://youtu.be/" ++ id) = false) := by
  refine ⟨?_, ?_, ?_, ?_⟩
  · intro id h11 hgood
    have hident : ident11 id.data = true := ident11_of_exact id.data h11 hgood
    constructor
    · show validUrlChars ("https://www.youtube.com/watch?v=" ++ id).data = true
      rw [String.data_append,
          show ("https://www.youtube.com/watch?v=").data
            = httpsLit ++ (wwwLit ++ (ycLit ++ watchLit)) from by decide]
      simp only [List.append_assoc]
      exact validUrlChars_https_pos _ (matchAfterScheme_www_pos _
        (matchHost_yc_pos _ (matchAfterHost_watch_pos _ hident)))
    · show validUrlChars ("https://youtu.be/" ++ id).data = true
      rw [String.data_append,
          show ("https://youtu.be/").data = httpsLit ++ ybLit from by decide]
      simp only [List.append_assoc]
      exact validUrlChars_https_pos _ (matchAfterScheme_direct_pos _
        (matchHost_yb_pos _ (matchAfterHost_direct_pos _ hident)))
  · intro s h1 h2
    cases hv : is_valid_youtube_url s
    · rfl
    · exfalso
      obtain ⟨⟨i, hi⟩, _⟩ := validUrlChars_struct s.data hv
      rcases hi with hy | hb
      · rw [hasSubstr_of_prefix_drop ycLit s.data i (by decide) hy] at h1
        exact Bool.noConfusion h1
      · rw [hasSubstr_of_prefix_drop ybLit s.data i (by decide) hb] at h2
        exact Bool.noConfusion h2
  · intro s h1
    cases hv : is_valid_youtube_url s
    · rfl
    · exfalso
      obtain ⟨_, ⟨j, hj⟩⟩ := validUrlChars_struct s.data hv
      rw [hasIdentRun_of_drop s.data j hj] at h1
      exact Bool.noConfusion h1
  · intro id h
    constructor
    · show validUrlChars ("https://www.youtube.com/watch?v=" ++ id).data = false
      rw [String.data_append,
          show ("https://www.youtube.com/watch?v=").data
            = httpsLit ++ (wwwLit ++ (ycLit ++ watchLit)) from by decide]
      simp only [List.append_assoc]
      exact valid_watch_short id.data h
    · show validUrlChars ("https://youtu.be/" ++ id).data = false
      rw [String.data_append,
          show ("https://youtu.be/").data = httpsLit ++ ybLit from by decide]
      simp only [List.append_assoc]
      exact valid_yb_short id.data h

/-- Witness for `url_validator_amended` at concrete strings. -/
theorem url_validator_amended_witness :
    is_valid_youtube_url ("https://www.youtube.com/watch?v=" ++ "dQw4w9WgXcQ") = true ∧
    is_valid_youtube_url ("https://youtu.be/" ++ "dQw4w9WgXcQ") = true ∧
    is_valid_youtube_url ("https://notyoutube.example/watch?v=dQw4w9WgXcQ") = false ∧
    is_valid_youtube_url ("ab&cd=ef%gh?ij&kl=mn%op") = false ∧
    is_valid_youtube_url ("https://youtu.be/" ++ "abc") = false := by
  refine ⟨(url_validator_amended.1 ("dQw4w9WgXcQ") (by decide) (by decide)).1,
          (url_validator_amended.1 ("dQw4w9WgXcQ") (by decide) (by decide)).2,
          url_validator_amended.2.1 _ (by decide) (by decide),
          url_validator_amended.2.2.1 _ (by decide),
          (url_validator_amended.2.2.2 ("abc") (by decide)).2⟩

end YTDL
